import Mathlib

/-!
Verification of the Recursive Editable Element Composition Engine of the
banana-slides repository, shallowly embedded from
src/backend/services/export_service.py and
src/backend/services/image_editability/inpaint_providers.py.

Python floats are modelled as rationals, Python int() as truncation toward
zero, os.path.exists as an arbitrary predicate on paths, and a builder call
that may raise as a failure oracle on the attempted operation; a Python
try/except block that logs and continues is the oracle-guarded attemptOp.
Functions of collaborator services that may raise are modelled as
Except-valued parameters.
-/

namespace BananaSlides

/-- Modelled from the spec: the BBox value type of the layout data model
(the model module of services/image_editability is not under src/, only its
consumers are).  Four coordinates in a page's pixel space. -/
structure BBox where
  x0 : ℚ
  y0 : ℚ
  x1 : ℚ
  y1 : ℚ
deriving DecidableEq

/-- Modelled from the spec: derived area of a BBox, the product of width and
height; this is also exactly the expression export_service.py line 689
computes for the parent area. -/
def BBox.area (b : BBox) : ℚ := (b.x1 - b.x0) * (b.y1 - b.y0)

/-- Element types dispatched on by the composition engine
(export_service.py lines 605-747). -/
inductive ElementType where
  | text
  | title
  | table
  | table_cell
  | image
  | figure
  | chart
  | unknown
deriving DecidableEq

/-- Modelled from the spec: the EditableElement tree node (type, content,
local bbox, optional global bbox, optional image path, optional inpainted
background path, ordered children).  Option models Python None; a content
that is Python None is modelled as the empty string, which has the same
truthiness and strips to itself. -/
inductive EditableElement where
  | mk
      (element_type : ElementType)
      (content : String)
      (bbox : BBox)
      (bbox_global : Option BBox)
      (image_path : Option String)
      (inpainted_background_path : Option String)
      (children : List EditableElement)

def EditableElement.element_type : EditableElement → ElementType
  | .mk t _ _ _ _ _ _ => t

def EditableElement.content : EditableElement → String
  | .mk _ c _ _ _ _ _ => c

def EditableElement.bbox : EditableElement → BBox
  | .mk _ _ b _ _ _ _ => b

def EditableElement.bbox_global : EditableElement → Option BBox
  | .mk _ _ _ g _ _ _ => g

def EditableElement.image_path : EditableElement → Option String
  | .mk _ _ _ _ p _ _ => p

def EditableElement.inpainted_background_path : EditableElement → Option String
  | .mk _ _ _ _ _ p _ => p

def EditableElement.children : EditableElement → List EditableElement
  | .mk _ _ _ _ _ _ cs => cs

/-- Python truthiness of an optional string attribute: None and the empty
string are falsy, any other string is truthy. -/
def pyTruthy : Option String → Bool
  | none => false
  | some s => !s.isEmpty

/-- Python int() applied to a float, modelled on rationals: truncation toward
zero, i.e. floor for non-negative arguments and ceiling for negative ones. -/
def pyInt (q : ℚ) : Int := if 0 ≤ q then ⌊q⌋ else ⌈q⌉

/-- Python str.strip(): remove leading and trailing whitespace. -/
def pyStrip (s : String) : String :=
  ⟨((s.data.dropWhile Char.isWhitespace).reverse.dropWhile Char.isWhitespace).reverse⟩

/-- Source export_service.py lines 589-592: depth 0 uses the local bbox; at
depth greater than 0 the code takes elem.bbox_global when that attribute is
set and truthy (a BBox object, i.e. not None), else falls back to the local
elem.bbox. -/
def selectBBox (depth : Nat) (e : EditableElement) : BBox :=
  if depth = 0 then e.bbox
  else
    match e.bbox_global with
    | some g => g
    | none => e.bbox

/-- Source export_service.py lines 595-600: the placed bbox list, each
coordinate scaled by its axis factor and converted with Python int(). -/
def scaleBBoxList (b : BBox) (sx sy : ℚ) : List Int :=
  [pyInt (b.x0 * sx), pyInt (b.y0 * sy), pyInt (b.x1 * sx), pyInt (b.y1 * sy)]

/-- Placement geometry the engine computes for one element at one depth:
frame selection (lines 589-592) followed by scaling (lines 595-600). -/
def placedBBoxList (e : EditableElement) (sx sy : ℚ) (depth : Nat) : List Int :=
  scaleBBoxList (selectBBox depth e) sx sy

/-- Placement operations issued against the PPTXBuilder capability.
An add_text operation carries the text, placed bbox, the text_level argument
(some "title", some "default", or none) and the align argument. -/
inductive Op where
  | add_text (text : String) (bbox : List Int) (text_level : Option String)
      (align : Option String)
  | add_image (image_path : String) (bbox : List Int)
  | add_placeholder (bbox : List Int)
deriving DecidableEq

/-- A builder call wrapped in try/except (log and continue): when the failure
oracle says the call raises, the operation is dropped and composition
continues; otherwise the operation is emitted. -/
def attemptOp (fails : Op → Bool) (op : Op) : List Op :=
  if fails op then [] else [op]

/-- Source export_service.py lines 694-697: the bbox used for a child in the
dominant-child check, bbox_global when set and truthy, else the local bbox. -/
def childFrameBBox (child : EditableElement) : BBox :=
  match child.bbox_global with
  | some g => g
  | none => child.bbox

/-- Source export_service.py line 700: the coverage of a child relative to a
parent area, child area divided by parent area when the parent area is
positive, and 0 otherwise (explicit guard against division by zero). -/
def childCoverage (parent_area : ℚ) (child : EditableElement) : ℚ :=
  if 0 < parent_area then (childFrameBBox child).area / parent_area else 0

/-- Source export_service.py lines 690-705: some child covers strictly more
than the 0.85 threshold of the parent area. -/
def hasDominantChild (parent_area : ℚ) (children : List EditableElement) : Bool :=
  children.any fun child => decide (85 / 100 < childCoverage parent_area child)

/-- Source export_service.py lines 685-707: recursion into the children of an
image, figure or chart element is used exactly when the element has children,
a truthy inpainted_background_path, and no dominant child; bbox is the
frame-selected parent bbox of lines 589-592. -/
def shouldUseRecursiveRender (e : EditableElement) (bbox : BBox) : Bool :=
  if !e.children.isEmpty && pyTruthy e.inpainted_background_path then
    !hasDominantChild bbox.area e.children
  else
    false

/-- Source export_service.py lines 668-681 and 730-743: the flattened branch.
Emit add_image of the element's image_path when that path is truthy and the
file exists (the call is guarded by try/except), else add_placeholder (whose
builder call is not wrapped; per the builder contract it never fails). -/
def flattenOps (fails : Op → Bool) (fs : String → Bool)
    (image_path : Option String) (bbox_list : List Int) : List Op :=
  if pyTruthy image_path && fs (image_path.getD "") then
    attemptOp fails (.add_image (image_path.getD "") bbox_list)
  else
    [.add_placeholder bbox_list]

mutual

/-- Source export_service.py lines 583-747, body of the per-element loop of
the method named add editable elements to slide: frame selection, scaling,
then dispatch on the element type.  The fs parameter models os.path.exists
and fails models which builder calls raise. -/
def addElementOps (fs : String → Bool) (fails : Op → Bool) (sx sy : ℚ)
    (depth : Nat) : EditableElement → List Op
  | e@(.mk element_type content _ _ image_path inpainted_background_path children) =>
    let bbox := selectBBox depth e
    let bbox_list := scaleBBoxList bbox sx sy
    match element_type with
    | .text =>
      if !content.isEmpty then
        let t := pyStrip content
        if !t.isEmpty then
          attemptOp fails (.add_text t bbox_list (some ("default")) none)
        else []
      else []
    | .title =>
      if !content.isEmpty then
        let t := pyStrip content
        if !t.isEmpty then
          attemptOp fails (.add_text t bbox_list (some ("title")) none)
        else []
      else []
    | .table_cell =>
      if !content.isEmpty then
        let t := pyStrip content
        if !t.isEmpty then
          attemptOp fails (.add_text t bbox_list none (some ("center")))
        else []
      else []
    | .table =>
      if !children.isEmpty && pyTruthy inpainted_background_path then
        (if fs (inpainted_background_path.getD "") then
          attemptOp fails
            (.add_image (inpainted_background_path.getD "") bbox_list)
        else []) ++
        addElementsOps fs fails sx sy (depth + 1) children
      else
        flattenOps fails fs image_path bbox_list
    | .image =>
      if shouldUseRecursiveRender e bbox then
        (if fs (inpainted_background_path.getD "") then
          attemptOp fails
            (.add_image (inpainted_background_path.getD "") bbox_list)
        else []) ++
        addElementsOps fs fails sx sy (depth + 1) children
      else
        flattenOps fails fs image_path bbox_list
    | .figure =>
      if shouldUseRecursiveRender e bbox then
        (if fs (inpainted_background_path.getD "") then
          attemptOp fails
            (.add_image (inpainted_background_path.getD "") bbox_list)
        else []) ++
        addElementsOps fs fails sx sy (depth + 1) children
      else
        flattenOps fails fs image_path bbox_list
    | .chart =>
      if shouldUseRecursiveRender e bbox then
        (if fs (inpainted_background_path.getD "") then
          attemptOp fails
            (.add_image (inpainted_background_path.getD "") bbox_list)
        else []) ++
        addElementsOps fs fails sx sy (depth + 1) children
      else
        flattenOps fails fs image_path bbox_list
    | .unknown => []

/-- Source export_service.py line 583: the sibling loop, emitting the
operations of each element in order. -/
def addElementsOps (fs : String → Bool) (fails : Op → Bool) (sx sy : ℚ)
    (depth : Nat) : List EditableElement → List Op
  | [] => []
  | e :: rest =>
    addElementOps fs fails sx sy depth e ++ addElementsOps fs fails sx sy depth rest

end

/-- PIL images are opaque to the code under verification; model them by an
identifier. -/
abbrev PILImage := Nat

/-- Source inpaint_providers.py lines 67-106: the region-precise strategy.
The underlying reconstruction capability remove_regions_by_bboxes may raise
(modelled as Except) or return None; the whole call sits in a try/except that
logs and returns None. -/
def DefaultInpaintProvider.inpaint_regions
    (remove_regions_by_bboxes :
      PILImage → List (ℚ × ℚ × ℚ × ℚ) → Nat → Bool → Nat →
        Except String (Option PILImage))
    (image : PILImage) (bboxes : List (ℚ × ℚ × ℚ × ℚ))
    (expand_pixels : Nat) (merge_bboxes : Bool) (merge_threshold : Nat) :
    Option PILImage :=
  match remove_regions_by_bboxes image bboxes expand_pixels merge_bboxes
      merge_threshold with
  | .ok result_img => result_img
  | .error _ => none

/-- Possible results of the external edit_image capability as inspected by
inpaint_providers.py lines 183-194: a falsy result, a PIL image, a wrapper
object carrying a PIL image attribute, or an unknown wrapper without one. -/
inductive EditImageResult where
  | pyNone
  | pilImage (img : PILImage)
  | wrapperWithPil (img : PILImage)
  | wrapperWithoutPil
deriving DecidableEq

/-- Source inpaint_providers.py lines 183-194: interpretation of the
edit_image result inside the try block; falsy and unknown wrapper results
become None, PIL images and wrappers carrying one yield the image. -/
def interpretEditResult : EditImageResult → Option PILImage
  | .pyNone => none
  | .pilImage i => some i
  | .wrapperWithPil i => some i
  | .wrapperWithoutPil => none

/-- Source inpaint_providers.py lines 160-197, the body of the try block of
the generative strategy, with the on-disk temporary files it creates tracked
explicitly.  get_clean_background_prompt may raise; the NamedTemporaryFile
call (delete=False) creates tmp_path on disk; image.save and the external
edit_image capability may raise.  No exit path removes tmp_path. -/
def GenerativeEditInpaintProvider.inpaintBody
    (get_clean_background_prompt : Except String String)
    (tmp_path : String)
    (save_image : Except String Unit)
    (edit_image : String → String → Except String EditImageResult)
    (disk : List String) : Except String (Option PILImage) × List String :=
  match get_clean_background_prompt with
  | .error e => (.error e, disk)
  | .ok edit_instruction =>
    let disk1 := disk ++ [tmp_path]
    match save_image with
    | .error e => (.error e, disk1)
    | .ok _ =>
      match edit_image edit_instruction tmp_path with
      | .error e => (.error e, disk1)
      | .ok r => (.ok (interpretEditResult r), disk1)

/-- Source inpaint_providers.py lines 141-201: the generative whole-image
strategy; the whole body sits in a try/except that logs and returns None, and
the temporary-file state is returned unchanged by the handler (no cleanup). -/
def GenerativeEditInpaintProvider.inpaint_regions
    (get_clean_background_prompt : Except String String)
    (tmp_path : String)
    (save_image : Except String Unit)
    (edit_image : String → String → Except String EditImageResult)
    (disk : List String) : Option PILImage × List String :=
  match GenerativeEditInpaintProvider.inpaintBody get_clean_background_prompt
      tmp_path save_image edit_image disk with
  | (.error _, d) => (none, d)
  | (.ok r, d) => (r, d)

/-- Source export_service.py lines 483-490: the fan-in loop over completed
futures.  analyze is the per-page worker (index to result, may raise);
completion_order is the order in which as_completed yields the futures;
results are written into index-addressed slots, and the first exception
encountered is re-raised, aborting the batch. -/
def collectAnalysisResults {α : Type} (analyze : Nat → Except String α) :
    List Nat → (Nat → Option α) → Except String (Nat → Option α)
  | [], results => .ok results
  | idx :: rest, results =>
    match analyze idx with
    | .error e => .error e
    | .ok v =>
      collectAnalysisResults analyze rest fun j => if j = idx then some v else results j

/-- Source export_service.py lines 474-492: the parallel analysis stage of
create_editable_pptx_with_recursive_analysis, returning the per-page results
in original page order (slots 0 to n-1) when every worker succeeds, and the
first exception otherwise. -/
def analyzeImagesBatch {α : Type} (analyze : Nat → Except String α)
    (completion_order : List Nat) (n : Nat) : Except String (List (Option α)) :=
  match collectAnalysisResults analyze completion_order (fun _ => none) with
  | .error e => .error e
  | .ok results => .ok ((List.range n).map results)

lemma isEmpty_false_of_pyStrip (s : String) (h : (pyStrip s).isEmpty = false) :
    s.isEmpty = false := by
  cases he : s.isEmpty
  · rfl
  · rw [String.isEmpty_iff] at he
    subst he
    exact absurd h (by decide)

/-- C1: coordinate-frame selection in the composition engine.  For every
element composed at depth 0, placement geometry is derived solely from the
local bbox (whatever bbox_global holds); at depth greater than 0 it uses
bbox_global whenever present and falls back to the local bbox exactly when
bbox_global is absent.  The last conjunct ties the placed geometry to the
operation actually emitted for a text element. -/
theorem coordinate_frame_selection :
    ∀ (e : EditableElement) (sx sy : ℚ),
      placedBBoxList e sx sy 0 = scaleBBoxList e.bbox sx sy
      ∧ (∀ depth : Nat, 0 < depth →
          (∀ g : BBox, e.bbox_global = some g →
            placedBBoxList e sx sy depth = scaleBBoxList g sx sy)
          ∧ (e.bbox_global = none →
            placedBBoxList e sx sy depth = scaleBBoxList e.bbox sx sy))
      ∧ (∀ (fs : String → Bool) (depth : Nat),
          e.element_type = .text → (pyStrip e.content).isEmpty = false →
          addElementOps fs (fun _ => false) sx sy depth e
            = [.add_text (pyStrip e.content) (placedBBoxList e sx sy depth)
                (some ("default")) none]) := by
  intro e sx sy
  refine ⟨by simp [placedBBoxList, selectBBox], fun depth hd => ?_, ?_⟩
  · have h0 : depth ≠ 0 := Nat.pos_iff_ne_zero.mp hd
    constructor
    · intro g hg
      simp [placedBBoxList, selectBBox, h0, hg]
    · intro hg
      simp [placedBBoxList, selectBBox, h0, hg]
  · intro fs depth htype hcontent
    cases e with
    | mk t c b g ip ibp cs =>
      cases t <;> simp [EditableElement.element_type] at htype
      simp only [EditableElement.content] at hcontent
      have hc : c.isEmpty = false := isEmpty_false_of_pyStrip c hcontent
      simp [addElementOps, attemptOp, placedBBoxList, EditableElement.content,
        hc, hcontent]

/-- C1 witness: a concrete depth-1 element whose bbox_global is populated is
placed from bbox_global. -/
theorem coordinate_frame_selection_witness :
    placedBBoxList
        (.mk .text (" hi ") ⟨1, 2, 3, 4⟩ (some ⟨5, 6, 7, 8⟩) none none []) 1 1 1
      = scaleBBoxList ⟨5, 6, 7, 8⟩ 1 1 :=
  ((coordinate_frame_selection
      (.mk .text (" hi ") ⟨1, 2, 3, 4⟩ (some ⟨5, 6, 7, 8⟩) none none []) 1 1).2.1
    1 (by decide)).1 ⟨5, 6, 7, 8⟩ rfl

/-- C5 counterexample: the claim says every placed coordinate equals the floor
of the scaled coordinate for every scale pair; but Python int() truncates
toward zero, so with x0 = 1 and scale_x = -1/2 the engine places coordinate 0
while the floor is -1. -/
theorem scaling_not_floor_counterexample :
    scaleBBoxList ⟨1, 0, 1, 2⟩ (-(1 / 2) : ℚ) 1 = [0, 0, 0, 2]
    ∧ (⌊((1 : ℚ) * (-(1 / 2) : ℚ))⌋ = (-1 : Int))
    ∧ ((0 : Int) ≠ (-1 : Int)) := by
  refine ⟨?_, by norm_num, by decide⟩
  norm_num [scaleBBoxList, pyInt]

/-- C5 amended: every placed coordinate equals the truncation toward zero of
the scaled coordinate (floor on non-negative values, ceiling on negative
ones), computed per coordinate independently; the floor form of the claim
holds whenever each scaled coordinate is non-negative. -/
theorem scaling_truncation :
    (∀ (b : BBox) (sx sy : ℚ),
      scaleBBoxList b sx sy
        = [pyInt (b.x0 * sx), pyInt (b.y0 * sy), pyInt (b.x1 * sx),
            pyInt (b.y1 * sy)])
    ∧ (∀ q : ℚ, 0 ≤ q → pyInt q = ⌊q⌋)
    ∧ (∀ q : ℚ, q < 0 → pyInt q = ⌈q⌉)
    ∧ (∀ (b : BBox) (sx sy : ℚ),
        0 ≤ b.x0 * sx → 0 ≤ b.y0 * sy → 0 ≤ b.x1 * sx → 0 ≤ b.y1 * sy →
        scaleBBoxList b sx sy
          = [⌊b.x0 * sx⌋, ⌊b.y0 * sy⌋, ⌊b.x1 * sx⌋, ⌊b.y1 * sy⌋]) := by
  refine ⟨fun b sx sy => rfl, fun q h => by simp [pyInt, h],
    fun q h => by simp [pyInt, not_le.mpr h], ?_⟩
  intro b sx sy h1 h2 h3 h4
  simp [scaleBBoxList, pyInt, h1, h2, h3, h4]

/-- C5 witness: floor semantics at a concrete non-negative instance. -/
theorem scaling_truncation_witness :
    scaleBBoxList ⟨1, 2, 3, 4⟩ (3 / 2) (1 / 2) = [1, 1, 4, 2] := by
  have h := scaling_truncation.2.2.2 ⟨1, 2, 3, 4⟩ (3 / 2) (1 / 2)
    (by norm_num) (by norm_num) (by norm_num) (by norm_num)
  rw [h]
  norm_num

/-- C4: per-element fault containment.  Composition of a sibling list is the
concatenation of each element's own operations, so a failing builder call
inside one element (caught by attemptOp, which drops exactly that operation)
never affects the operations of the remaining siblings; the closed conjunct
runs a three-element page whose middle add-text call raises and obtains the
other two operations. -/
theorem per_element_fault_containment :
    (∀ (fs : String → Bool) (fails : Op → Bool) (sx sy : ℚ) (depth : Nat)
        (elems : List EditableElement),
      addElementsOps fs fails sx sy depth elems
        = (elems.map (addElementOps fs fails sx sy depth)).flatten)
    ∧ (∀ (fails : Op → Bool) (op : Op),
        attemptOp fails op = if fails op then [] else [op])
    ∧ addElementsOps (fun _ => true)
        (fun op => decide (op = .add_text ("b") [0, 0, 1, 1] (some ("default")) none))
        1 1 0
        [.mk .text ("a") ⟨0, 0, 1, 1⟩ none none none [],
         .mk .text ("b") ⟨0, 0, 1, 1⟩ none none none [],
         .mk .text ("c") ⟨0, 0, 1, 1⟩ none none none []]
      = [.add_text ("a") [0, 0, 1, 1] (some ("default")) none,
         .add_text ("c") [0, 0, 1, 1] (some ("default")) none] := by
  refine ⟨?_, fun fails op => rfl, ?_⟩
  · intro fs fails sx sy depth elems
    induction elems with
    | nil => simp [addElementsOps]
    | cons e rest ih => simp [addElementsOps, ih]
  · norm_num [addElementsOps, addElementOps, attemptOp, pyStrip, scaleBBoxList,
      selectBBox, pyInt, EditableElement.bbox, EditableElement.bbox_global,
      EditableElement.content, EditableElement.element_type,
      EditableElement.children, EditableElement.image_path,
      EditableElement.inpainted_background_path]
    decide

/-- C2 counterexample: a table element with one child cell and an
inpainted_background_path that does not resolve to an existing file (the
filesystem predicate is constantly false) does not flatten: the engine still
enters the child-recursion path and emits the cell's add-text operation,
rather than the add-image of image_path (whose file is also missing) or the
add-placeholder the claim requires. -/
theorem table_missing_background_counterexample :
    addElementsOps (fun _ => false) (fun _ => false) 1 1 0
        [.mk .table ("") ⟨0, 0, 10, 10⟩ none (some ("/img/table.png"))
          (some ("/bg/clean.png"))
          [.mk .table_cell ("x") ⟨0, 0, 5, 5⟩ (some ⟨1, 1, 4, 4⟩) none none []]]
      = [.add_text ("x") [1, 1, 4, 4] none (some ("center"))]
    ∧ [Op.add_text ("x") [1, 1, 4, 4] none (some ("center"))]
        ≠ [Op.add_image ("/img/table.png") [0, 0, 10, 10]]
    ∧ [Op.add_text ("x") [1, 1, 4, 4] none (some ("center"))]
        ≠ [Op.add_placeholder [0, 0, 10, 10]] := by
  refine ⟨?_, by decide, by decide⟩
  norm_num [addElementsOps, addElementOps, attemptOp, pyStrip, scaleBBoxList,
    selectBBox, pyInt, pyTruthy, EditableElement.bbox, EditableElement.bbox_global,
    EditableElement.content, EditableElement.element_type,
    EditableElement.children, EditableElement.image_path,
    EditableElement.inpainted_background_path]
  decide

/-- C2 amended: recursion for a table element is decided by the truthiness of
inpainted_background_path alone, not by file existence.  With non-empty
children and a set path whose file is missing, the engine skips the
background add-image but still recurses into the children and emits exactly
their operations; the flattened add-image / add-placeholder branch is taken
exactly when children is empty or the path is unset. -/
theorem table_recursion_condition :
    (∀ (fs : String → Bool) (fails : Op → Bool) (sx sy : ℚ) (depth : Nat)
        (content : String) (b : BBox) (g : Option BBox) (ip : Option String)
        (ibp : String) (children : List EditableElement),
      children ≠ [] → ibp.isEmpty = false → fs ibp = false →
      addElementOps fs fails sx sy depth
          (.mk .table content b g ip (some ibp) children)
        = addElementsOps fs fails sx sy (depth + 1) children)
    ∧ (∀ (fs : String → Bool) (fails : Op → Bool) (sx sy : ℚ) (depth : Nat)
        (content : String) (b : BBox) (g : Option BBox) (ip : Option String)
        (ibp : Option String) (children : List EditableElement),
      children = [] ∨ pyTruthy ibp = false →
      addElementOps fs fails sx sy depth
          (.mk .table content b g ip ibp children)
        = flattenOps fails fs ip
            (scaleBBoxList
              (selectBBox depth (.mk .table content b g ip ibp children)) sx sy)) := by
  constructor
  · intro fs fails sx sy depth content b g ip ibp children hch hibp hfs
    cases children with
    | nil => exact absurd rfl hch
    | cons c cs => simp [addElementOps, pyTruthy, hibp, hfs]
  · intro fs fails sx sy depth content b g ip ibp children h
    rcases h with h | h
    · subst h
      simp [addElementOps]
    · cases children with
      | nil => simp [addElementOps]
      | cons c cs => simp [addElementOps, h]

/-- C2 witness: the recursion-despite-missing-file clause applied to a
concrete table with one cell child. -/
theorem table_recursion_condition_witness :
    addElementOps (fun _ => false) (fun _ => false) 1 1 0
        (.mk .table ("") ⟨0, 0, 10, 10⟩ none (some ("/img/table.png"))
          (some ("/bg/clean.png"))
          [.mk .table_cell ("x") ⟨0, 0, 5, 5⟩ (some ⟨1, 1, 4, 4⟩) none none []])
      = addElementsOps (fun _ => false) (fun _ => false) 1 1 1
          [.mk .table_cell ("x") ⟨0, 0, 5, 5⟩ (some ⟨1, 1, 4, 4⟩) none none []] :=
  table_recursion_condition.1 (fun _ => false) (fun _ => false) 1 1 0 ("")
    ⟨0, 0, 10, 10⟩ none (some ("/img/table.png")) ("/bg/clean.png")
    [.mk .table_cell ("x") ⟨0, 0, 5, 5⟩ (some ⟨1, 1, 4, 4⟩) none none []]
    (List.cons_ne_nil _ _) rfl rfl

/-- C3: the dominant-child heuristic for image, figure and chart elements:
recursion is enabled exactly when children is non-empty, the inpainted
background path is truthy, and no child's coverage of the parent area
strictly exceeds the 0.85 threshold; at parent area 1000, a child of area 851
disables recursion while a child of area 849 leaves it enabled. -/
theorem dominant_child_heuristic :
    (∀ (e : EditableElement) (b : BBox),
      shouldUseRecursiveRender e b = true ↔
        (e.children ≠ [] ∧ pyTruthy e.inpainted_background_path = true ∧
          ∀ child ∈ e.children, childCoverage b.area child ≤ 85 / 100))
    ∧ shouldUseRecursiveRender
        (.mk .image ("") ⟨0, 0, 40, 25⟩ none (some ("/img.png")) (some ("/bg.png"))
          [.mk .image ("") ⟨0, 0, 1, 1⟩ (some ⟨0, 0, 23, 37⟩) none none []])
        ⟨0, 0, 40, 25⟩ = false
    ∧ shouldUseRecursiveRender
        (.mk .image ("") ⟨0, 0, 40, 25⟩ none (some ("/img.png")) (some ("/bg.png"))
          [.mk .image ("") ⟨0, 0, 1, 1⟩ (some ⟨0, 0, 283, 3⟩) none none []])
        ⟨0, 0, 40, 25⟩ = true := by
  refine ⟨?_, ?_, ?_⟩
  · intro e b
    rw [shouldUseRecursiveRender]
    rcases hch : e.children with _ | ⟨c, cs⟩ <;>
      cases hibp : pyTruthy e.inpainted_background_path <;>
        simp [hch, hibp, hasDominantChild, List.any_eq_true, not_lt,
          decide_eq_true_eq]
  · norm_num [shouldUseRecursiveRender, hasDominantChild, childCoverage,
      childFrameBBox, BBox.area, pyTruthy, EditableElement.children,
      EditableElement.inpainted_background_path, EditableElement.bbox_global,
      decide_eq_true_eq]
  · norm_num [shouldUseRecursiveRender, hasDominantChild, childCoverage,
      childFrameBBox, BBox.area, pyTruthy, EditableElement.children,
      EditableElement.inpainted_background_path, EditableElement.bbox_global,
      decide_eq_true_eq]
    decide

/-- C3 witness: the characterization applied to a concrete parent of area
1000 with a single child of area 500, concluding that recursion is enabled. -/
theorem dominant_child_heuristic_witness :
    shouldUseRecursiveRender
        (.mk .image ("") ⟨0, 0, 40, 25⟩ none (some ("/img.png")) (some ("/bg.png"))
          [.mk .image ("") ⟨0, 0, 1, 1⟩ (some ⟨0, 0, 20, 25⟩) none none []])
        ⟨0, 0, 40, 25⟩ = true :=
  (dominant_child_heuristic.1 _ _).mpr
    ⟨by simp [EditableElement.children], rfl, by
      intro child hc
      simp [EditableElement.children] at hc
      subst hc
      norm_num [childCoverage, childFrameBBox, BBox.area,
        EditableElement.bbox_global]⟩

/-- C10: when the parent area of the dominant-child check is zero, each
child's coverage is defined to be 0 instead of a division by zero, so no
child is ever classified as dominant and a zero-area parent with children and
a set inpainted background path always takes the recursion branch. -/
theorem zero_area_parent_recursion :
    (∀ (pa : ℚ) (child : EditableElement), pa = 0 → childCoverage pa child = 0)
    ∧ (∀ (e : EditableElement) (b : BBox), b.area = 0 →
        e.children ≠ [] → pyTruthy e.inpainted_background_path = true →
        shouldUseRecursiveRender e b = true) := by
  have hcov : ∀ (pa : ℚ) (child : EditableElement), pa = 0 →
      childCoverage pa child = 0 := by
    intro pa child h
    simp [childCoverage, h]
  refine ⟨hcov, ?_⟩
  intro e b hb hch hibp
  have h0 : ∀ child : EditableElement, childCoverage 0 child = 0 :=
    fun child => hcov 0 child rfl
  rw [shouldUseRecursiveRender]
  rcases hc : e.children with _ | ⟨c, cs⟩
  · exact absurd hc hch
  · simp [hc, hibp, hasDominantChild, List.any_eq_true, hb, h0,
      decide_eq_true_eq]
    norm_num

/-- C10 witness: a concrete zero-area parent with a child and a set
background path takes the recursion branch. -/
theorem zero_area_parent_recursion_witness :
    shouldUseRecursiveRender
        (.mk .image ("") ⟨0, 0, 0, 5⟩ none none (some ("/bg.png"))
          [.mk .image ("") ⟨0, 0, 9, 9⟩ none none none []])
        ⟨0, 0, 0, 5⟩ = true :=
  zero_area_parent_recursion.2
    (.mk .image ("") ⟨0, 0, 0, 5⟩ none none (some ("/bg.png"))
      [.mk .image ("") ⟨0, 0, 9, 9⟩ none none none []])
    ⟨0, 0, 0, 5⟩ (by norm_num [BBox.area])
    (by simp [EditableElement.children]) rfl

lemma collectAnalysisResults_error {α : Type} (analyze : Nat → Except String α)
    (i : Nat) (msg : String) (herr : analyze i = .error msg) :
    ∀ (order : List Nat) (acc : Nat → Option α), i ∈ order →
      ∃ m, collectAnalysisResults analyze order acc = .error m := by
  intro order
  induction order with
  | nil =>
    intro acc h
    simp at h
  | cons k rest ih =>
    intro acc hmem
    rw [collectAnalysisResults]
    cases hk : analyze k with
    | error e => exact ⟨e, rfl⟩
    | ok v =>
      rcases List.mem_cons.mp hmem with h | h
      · subst h
        simp [hk] at herr
      · exact ih _ h

lemma collectAnalysisResults_ok {α : Type} (analyze : Nat → Except String α) :
    ∀ (order : List Nat) (acc : Nat → Option α),
      (∀ i ∈ order, (analyze i).isOk = true) →
      ∃ f, collectAnalysisResults analyze order acc = .ok f ∧
        ∀ j, f j = if j ∈ order then (analyze j).toOption else acc j := by
  intro order
  induction order with
  | nil =>
    intro acc _
    exact ⟨acc, rfl, by simp⟩
  | cons k rest ih =>
    intro acc h
    have hk : (analyze k).isOk = true := h k (List.mem_cons_self k rest)
    cases hak : analyze k with
    | error e =>
      rw [hak] at hk
      simp [Except.isOk, Except.toBool] at hk
    | ok v =>
      rw [collectAnalysisResults, hak]
      obtain ⟨f, hf, hval⟩ := ih (fun j => if j = k then some v else acc j)
        (fun i hi => h i (List.mem_cons_of_mem _ hi))
      refine ⟨f, hf, fun j => ?_⟩
      rw [hval j]
      by_cases hjr : j ∈ rest
      · simp [hjr]
      · by_cases hjk : j = k
        · subst hjk
          simp [hjr, hak, Except.toOption]
        · simp [hjr, hjk]

/-- C6: batch fail-fast — when any page's analysis raises during the fan-out,
the whole batch fails and no result list is produced for any page, including
the ones whose analysis succeeded. -/
theorem batch_fail_fast :
    ∀ {α : Type} (analyze : Nat → Except String α)
      (completion_order : List Nat) (n i : Nat) (msg : String),
      i ∈ completion_order → analyze i = .error msg →
      (analyzeImagesBatch analyze completion_order n).isOk = false := by
  intro α analyze order n i msg hmem herr
  obtain ⟨m, hm⟩ :=
    collectAnalysisResults_error analyze i msg herr order (fun _ => none) hmem
  rw [analyzeImagesBatch, hm]
  rfl

/-- C6 witness: a three-page batch whose page 1 analysis raises produces no
output, although pages 0 and 2 would have succeeded. -/
theorem batch_fail_fast_witness :
    (analyzeImagesBatch
        (fun j => if j = 1 then Except.error ("boom") else Except.ok j)
        [0, 1, 2] 3).isOk = false :=
  batch_fail_fast (fun j => if j = 1 then Except.error ("boom") else Except.ok j)
    [0, 1, 2] 3 1 ("boom") (by decide) rfl

/-- C7: page-order preservation — for every completion order of the parallel
workers (any permutation of the page indices) in which all analyses succeed,
the collected result sequence is indexed by original page position: slot i
holds the analysis of input i. -/
theorem batch_order_preservation :
    ∀ {α : Type} (analyze : Nat → Except String α) (n : Nat)
      (completion_order : List Nat),
      completion_order.Perm (List.range n) →
      (∀ i, i < n → (analyze i).isOk = true) →
      analyzeImagesBatch analyze completion_order n
        = .ok ((List.range n).map fun i => (analyze i).toOption) := by
  intro α analyze n order hperm hok
  have hmem : ∀ i, i ∈ order ↔ i < n := by
    intro i
    rw [hperm.mem_iff, List.mem_range]
  obtain ⟨f, hf, hval⟩ := collectAnalysisResults_ok analyze order (fun _ => none)
    (fun i hi => hok i ((hmem i).mp hi))
  have hmap : (List.range n).map f
      = (List.range n).map fun i => (analyze i).toOption := by
    apply List.map_congr_left
    intro i hi
    rw [hval i, if_pos ((hmem i).mpr (List.mem_range.mp hi))]
  rw [analyzeImagesBatch, hf]
  exact congrArg Except.ok hmap

/-- C7 witness: a batch of three pages completing in the order 2, 0, 1 still
yields results in page order 0, 1, 2. -/
theorem batch_order_preservation_witness :
    analyzeImagesBatch (fun j => Except.ok (10 * j)) [2, 0, 1] 3
      = .ok [some 0, some 10, some 20] := by
  have h := batch_order_preservation (fun j => Except.ok (10 * j)) 3 [2, 0, 1]
    (by decide) (fun i hi => rfl)
  rw [h]
  rfl

/-- C8: neither inpaint strategy propagates an exception to its caller: every
internal error of the underlying reconstruction capability (region-precise
strategy) or of the try-block body (generative whole-image strategy) is
caught and turned into None, and a normal result is returned as is. -/
theorem inpaint_providers_never_raise :
    (∀ (remove_regions_by_bboxes :
          PILImage → List (ℚ × ℚ × ℚ × ℚ) → Nat → Bool → Nat →
            Except String (Option PILImage))
        (image : PILImage) (bboxes : List (ℚ × ℚ × ℚ × ℚ))
        (expand_pixels : Nat) (merge_bboxes : Bool) (merge_threshold : Nat),
      (∀ msg, remove_regions_by_bboxes image bboxes expand_pixels merge_bboxes
            merge_threshold = .error msg →
        DefaultInpaintProvider.inpaint_regions remove_regions_by_bboxes image
          bboxes expand_pixels merge_bboxes merge_threshold = none)
      ∧ (∀ r, remove_regions_by_bboxes image bboxes expand_pixels merge_bboxes
            merge_threshold = .ok r →
        DefaultInpaintProvider.inpaint_regions remove_regions_by_bboxes image
          bboxes expand_pixels merge_bboxes merge_threshold = r))
    ∧ (∀ (get_clean_background_prompt : Except String String)
        (tmp_path : String) (save_image : Except String Unit)
        (edit_image : String → String → Except String EditImageResult)
        (disk : List String),
      (∀ msg, (GenerativeEditInpaintProvider.inpaintBody
            get_clean_background_prompt tmp_path save_image edit_image
            disk).1 = .error msg →
        (GenerativeEditInpaintProvider.inpaint_regions
          get_clean_background_prompt tmp_path save_image edit_image
          disk).1 = none)
      ∧ (∀ r, (GenerativeEditInpaintProvider.inpaintBody
            get_clean_background_prompt tmp_path save_image edit_image
            disk).1 = .ok r →
        (GenerativeEditInpaintProvider.inpaint_regions
          get_clean_background_prompt tmp_path save_image edit_image
          disk).1 = r)) := by
  constructor
  · intro svc image bboxes ep mb mt
    constructor
    · intro msg h
      simp [DefaultInpaintProvider.inpaint_regions, h]
    · intro r h
      simp [DefaultInpaintProvider.inpaint_regions, h]
  · intro gp tmp_path save_image edit_image disk
    rcases hb : GenerativeEditInpaintProvider.inpaintBody gp tmp_path
        save_image edit_image disk with ⟨res, d⟩
    constructor
    · intro msg h
      simp only at h
      simp [GenerativeEditInpaintProvider.inpaint_regions, hb, h]
    · intro r h
      simp only at h
      simp [GenerativeEditInpaintProvider.inpaint_regions, hb, h]

/-- C8 witness: a raising reconstruction service and a raising image save are
both turned into a None result. -/
theorem inpaint_providers_never_raise_witness :
    DefaultInpaintProvider.inpaint_regions
        (fun _ _ _ _ _ => Except.error ("service down")) 7 [(0, 0, 1, 1)]
        10 false 20 = none
    ∧ (GenerativeEditInpaintProvider.inpaint_regions (Except.ok ("prompt"))
        ("/tmp/a.png") (Except.error ("disk full"))
        (fun _ _ => Except.ok (.pyNone)) []).1 = none :=
  ⟨(inpaint_providers_never_raise.1
      (fun _ _ _ _ _ => Except.error ("service down")) 7 [(0, 0, 1, 1)]
      10 false 20).1 ("service down") rfl,
    (inpaint_providers_never_raise.2 (Except.ok ("prompt")) ("/tmp/a.png")
      (Except.error ("disk full")) (fun _ _ => Except.ok (.pyNone)) []).1
      ("disk full") rfl⟩

/-- C9 counterexample: a successful generative inpaint call returns with its
temporary image file still on disk; the file is created with delete set to
False and no exit path removes it, refuting the claim that every call deletes
the temporary file before returning. -/
theorem generative_tmpfile_counterexample :
    GenerativeEditInpaintProvider.inpaint_regions (Except.ok ("prompt"))
        ("/tmp/inpaint_input.png") (Except.ok ())
        (fun _ _ => Except.ok (.pilImage 7)) []
      = (some 7, [("/tmp/inpaint_input.png")])
    ∧ ([("/tmp/inpaint_input.png")] : List String) ≠ ([] : List String) := by
  exact ⟨rfl, by decide⟩

/-- C9 amended: the generative strategy's temporary file persists on every
exit path.  Whenever the call reaches temp-file creation (the prompt lookup
did not raise), the final disk state is the initial one plus the temporary
file — on success and on every caught internal error alike; the file is never
deleted by the provider. -/
theorem generative_tmpfile_persists :
    ∀ (get_clean_background_prompt : Except String String) (tmp_path : String)
      (save_image : Except String Unit)
      (edit_image : String → String → Except String EditImageResult)
      (disk : List String),
      (GenerativeEditInpaintProvider.inpaint_regions
          get_clean_background_prompt tmp_path save_image edit_image disk).2
        = match get_clean_background_prompt with
          | .error _ => disk
          | .ok _ => disk ++ [tmp_path] := by
  intro gp tmp_path save_image edit_image disk
  cases gp with
  | error e =>
    simp [GenerativeEditInpaintProvider.inpaint_regions,
      GenerativeEditInpaintProvider.inpaintBody]
  | ok prompt =>
    cases save_image with
    | error e =>
      simp [GenerativeEditInpaintProvider.inpaint_regions,
        GenerativeEditInpaintProvider.inpaintBody]
    | ok u =>
      cases hei : edit_image prompt tmp_path with
      | error e =>
        simp [GenerativeEditInpaintProvider.inpaint_regions,
          GenerativeEditInpaintProvider.inpaintBody, hei]
      | ok r =>
        simp [GenerativeEditInpaintProvider.inpaint_regions,
          GenerativeEditInpaintProvider.inpaintBody, hei]

end BananaSlides
